import Mathlib

/-
Verification of the source-classification / resolution / file-read core of
repo_file_expander (src/stuff.rs, `SourceContentReader`).

Shallow embedding conventions:
- The filesystem is a map from path strings to nodes (`FS`); a node is a
  directory or a file with contents and a readability flag (an unreadable
  file models permission-denied or I/O failure inside File::open /
  read_to_string on an existing path).
- External collaborators are modelled at their interface, as abstract data
  in `Env`: `urlParse` stands for url::Url::parse (returning the parsed
  scheme / host / path on success), `tempOk` and `tempPath` stand for
  tempfile::tempdir() (success flag and the fresh directory it creates),
  `cloneFiles` stands for git2::Repository::clone (on success, the set of
  files the clone writes under the target directory; `none` is clone
  failure).
- The embedded asset bundle include_dir!(init) is an abstract map
  `Bundle` from filenames to their UTF-8 contents.
- Rust panics (`Option::unwrap` on `None`) are a distinguished outcome
  `ReadResult.panicked` with the reason identifying which unwrap fired.
- Construction (`SourceContentReader.new`) threads the filesystem and
  returns the list of clone attempts made, so that "exactly one clone,
  at construction time" is a statement about the returned event list.
  The read functions do not take the clone oracle at all, mirroring the
  fact that read_file_contents performs no clone.
-/

namespace RepoFileExpander

/-- Mirrors enum SourceType in src/stuff.rs. -/
inductive SourceType
  | LocalDirectory
  | GitRepository
  | Unknown
deriving DecidableEq, Repr

/-- Filesystem node: a directory, or a file with contents; `readable = false`
models a file whose open/read fails with an I/O error (e.g. permission
denied) even though the path exists. -/
inductive FNode
  | dir
  | file (contents : String) (readable : Bool)
deriving DecidableEq, Repr

/-- Filesystem state: path string to node, `none` when the path does not
exist. -/
abbrev FS := String → Option FNode

/-- Embedded asset bundle (include_dir! of the init directory): filename to
UTF-8 contents, `none` when the filename is absent from the bundle. -/
abbrev Bundle := String → Option String

/-- Result of url::Url::parse, at the interface used by validate_git_url:
scheme, host_str and path. -/
structure Url where
  scheme : String
  host : Option String
  path : String
deriving DecidableEq, Repr

/-- Abstract environment for the external collaborators (URL parser,
tempfile::tempdir, git2::Repository::clone). -/
structure Env where
  urlParse : String → Option Url
  tempOk : Bool
  tempPath : String
  cloneFiles : String → Option (List (String × String))

/-- Rust str::ends_with, over the character sequence of the strings (kept
structurally recursive so that proofs can evaluate it). -/
def strEndsWith (s t : String) : Bool :=
  s.toList.reverse.take t.toList.length == t.toList.reverse

/-- Rust str::contains with a single-character pattern. -/
def strContains (s : String) (c : Char) : Bool := s.toList.contains c

/-- Rust str::starts_with, over the character sequence of the strings. -/
def strStartsWith (s t : String) : Bool :=
  s.toList.take t.toList.length == t.toList

/-- PathBuf::join with a single component. -/
def pathJoin (p f : String) : String := p ++ "/" ++ f

/-- Path::exists. -/
def pathExists (fs : FS) (p : String) : Bool := (fs p).isSome

/-- Path::is_dir. -/
def pathIsDir (fs : FS) (p : String) : Bool :=
  match fs p with
  | some FNode.dir => true
  | _ => false

/-- Mirrors SourceContentReader::is_local_directory:
`path.exists() && path.is_dir()`. -/
def is_local_directory (fs : FS) (path : String) : Bool :=
  pathExists fs path && pathIsDir fs path

/-- Host allow-list from validate_git_url. -/
def git_hosts : List String := ["github.com", "gitlab.com", "bitbucket.org"]

/-- Mirrors SourceContentReader::validate_git_url. -/
def validate_git_url (url : Url) : Bool :=
  url.scheme == "https"
    && git_hosts.contains (url.host.getD "")
    && (strEndsWith url.path ".git" || strContains url.path '/')

/-- Mirrors SourceContentReader::is_git_repository: if the string parses as
a URL, validate it; otherwise check that the path exists and contains a
`.git` entry. -/
def is_git_repository (env : Env) (fs : FS) (path : String) : Bool :=
  match env.urlParse path with
  | some url => validate_git_url url
  | none => pathExists fs path && pathExists fs (pathJoin path ".git")

/-- Mirrors struct SourceContentReader (the TempDir resource is represented
by its directory path). -/
structure SourceContentReader where
  path : String
  location : Option String
  source_type : SourceType
  temp_dir : Option String
deriving DecidableEq, Repr

/-- Construction-time errors of SourceContentReader::new. -/
inductive ConstructError
  | tempDirFailed
  | cloneFailed
deriving DecidableEq, Repr

/-- Observable external action performed during construction. -/
inductive Event
  | cloneAttempt (url : String)
deriving DecidableEq, Repr

/-- Effect of tempfile::tempdir(): create an (empty) directory node. -/
def mkDir (fs : FS) (p : String) : FS :=
  fun q => if q = p then some FNode.dir else fs q

/-- Effect of a successful Repository::clone into `base`: the cloned files
appear (readable) under `base`. -/
def writeEntries (fs : FS) (base : String) (files : List (String × String)) : FS :=
  files.foldl
    (fun acc nc =>
      fun q => if q = pathJoin base nc.1 then some (FNode.file nc.2 true) else acc q)
    fs

/-- Effect of deleting a directory tree rooted at `p` (TempDir's cleanup):
the root and everything below it disappear. -/
def removeTree (fs : FS) (p : String) : FS :=
  fun q => if q = p || strStartsWith q (p ++ "/") then none else fs q

/-- Mirrors SourceContentReader::setup_git_repository. It first creates a
temporary directory; if the source is itself a local directory that path is
used and no clone happens; otherwise Repository::clone targets the
temporary directory and a failure propagates (the temporary directory,
owned by the aborted call frame, is dropped and deleted). Returns
(location, temp dir path) on success, plus the filesystem after the call
and the clone attempts made. -/
def setup_git_repository (env : Env) (fs : FS) (path : String) :
    Except ConstructError (String × String) × FS × List Event :=
  if env.tempOk then
    if is_local_directory (mkDir fs env.tempPath) path then
      (Except.ok (path, env.tempPath), mkDir fs env.tempPath, [])
    else
      match env.cloneFiles path with
      | some files =>
          (Except.ok (env.tempPath, env.tempPath),
            writeEntries (mkDir fs env.tempPath) env.tempPath files,
            [Event.cloneAttempt path])
      | none =>
          (Except.error ConstructError.cloneFailed,
            removeTree (mkDir fs env.tempPath) env.tempPath,
            [Event.cloneAttempt path])
  else (Except.error ConstructError.tempDirFailed, fs, [])

/-- State of the reader after the first `if` of SourceContentReader::new:
starts as Unknown with no location, and becomes LocalDirectory with the
source path as location when is_local_directory holds. -/
def initial_scr (fs : FS) (path : String) : SourceContentReader :=
  if is_local_directory fs path then
    { path := path, location := some path,
      source_type := SourceType.LocalDirectory, temp_dir := none }
  else
    { path := path, location := none,
      source_type := SourceType.Unknown, temp_dir := none }

/-- Mirrors SourceContentReader::new. Note that the git-repository check is
a second independent `if`, not an `else`: it runs even when the local
directory check already matched. -/
def SourceContentReader.new (env : Env) (fs : FS) (path : String) :
    Except ConstructError SourceContentReader × FS × List Event :=
  if is_git_repository env fs path then
    match setup_git_repository env fs path with
    | (Except.ok lt, fs1, evs) =>
        (Except.ok { initial_scr fs path with
            location := some lt.1, temp_dir := some lt.2,
            source_type := SourceType.GitRepository }, fs1, evs)
    | (Except.error e, fs1, evs) => (Except.error e, fs1, evs)
  else (Except.ok (initial_scr fs path), fs, [])

/-- Net source classification performed by SourceContentReader::new: the
source_type the constructed reader carries (clone success permitting). -/
def classify (env : Env) (fs : FS) (path : String) : SourceType :=
  if is_git_repository env fs path then SourceType.GitRepository
  else if is_local_directory fs path then SourceType.LocalDirectory
  else SourceType.Unknown

/-- Reason a read panics: the unwrap of self.location in read_local_file,
or the unwrap of PROJECT_DIR.get_file in read_fallback. -/
inductive PanicReason
  | locationMissing
  | bundleMissing
deriving DecidableEq, Repr

/-- Outcome of read_file_contents: contents, an I/O error, or a panic. -/
inductive ReadResult
  | ok (contents : String)
  | ioError
  | panicked (r : PanicReason)
deriving DecidableEq, Repr

/-- Mirrors SourceContentReader::read_fallback: PROJECT_DIR.get_file(filename)
.unwrap() — a filename absent from the bundle panics. -/
def read_fallback (bundle : Bundle) (filename : String) : ReadResult :=
  match bundle filename with
  | some body => ReadResult.ok body
  | none => ReadResult.panicked PanicReason.bundleMissing

/-- Mirrors SourceContentReader::read_local_file: unwrap the location, join
the filename; if the path does not exist fall back to the bundle, otherwise
open and read (an unreadable file or a directory yields an I/O error). -/
def read_local_file (scr : SourceContentReader) (fs : FS) (bundle : Bundle)
    (filename : String) : ReadResult :=
  match scr.location with
  | none => ReadResult.panicked PanicReason.locationMissing
  | some loc =>
      match fs (pathJoin loc filename) with
      | none => read_fallback bundle filename
      | some (FNode.file contents true) => ReadResult.ok contents
      | some (FNode.file _ false) => ReadResult.ioError
      | some FNode.dir => ReadResult.ioError

/-- Mirrors SourceContentReader::read_file_contents. -/
def read_file_contents (scr : SourceContentReader) (fs : FS) (bundle : Bundle)
    (filename : String) : ReadResult :=
  match scr.source_type with
  | SourceType.LocalDirectory => read_local_file scr fs bundle filename
  | SourceType.GitRepository => read_local_file scr fs bundle filename
  | SourceType.Unknown => read_fallback bundle filename

/-- Read as a method call on a shared reference (&self): the receiver is
returned unchanged because the Rust signature rules out mutation. -/
def read_file_contents_call (scr : SourceContentReader) (fs : FS)
    (bundle : Bundle) (filename : String) : ReadResult × SourceContentReader :=
  (read_file_contents scr fs bundle filename, scr)

/-- Modelled from the spec: the destructor side of the ScopedTempDirectory
resource. The tempfile crate's TempDir Drop implementation (outside this
repository) deletes the temporary directory tree when the owning
SourceContentReader reaches the end of its lifetime. -/
def SourceContentReader.dropReader (scr : SourceContentReader) (fs : FS) : FS :=
  match scr.temp_dir with
  | some t => removeTree fs t
  | none => fs

/-! Concrete fixtures used by counterexamples and witnesses. -/

/-- URL parser behaviour on plain filesystem paths: Url::parse fails on a
string with no scheme. -/
def noUrlParse : String → Option Url := fun _ => none

/-- Environment for local-path sources: no string parses as a URL, the
temporary directory is /tmp/t0, every clone fails. -/
def envLocal : Env :=
  { urlParse := noUrlParse, tempOk := true, tempPath := "/tmp/t0",
    cloneFiles := fun _ => none }

/-- Filesystem holding one local git checkout: directory /repo containing a
.git entry. -/
def fsRepo : FS := fun p =>
  if p = "/repo" then some FNode.dir
  else if p = "/repo/.git" then some FNode.dir
  else none

/-- Filesystem holding one empty directory /tmp/emptydir. -/
def fsEmptyDir : FS := fun p =>
  if p = "/tmp/emptydir" then some FNode.dir else none

/-- Bundle with no files at all. -/
def emptyBundle : Bundle := fun _ => none

/-- Reader produced by construction from /tmp/emptydir. -/
def scrEmptyDir : SourceContentReader :=
  { path := "/tmp/emptydir", location := some "/tmp/emptydir",
    source_type := SourceType.LocalDirectory, temp_dir := none }

/-- Claim C1 (counterexample): /repo is an existing directory containing a
.git entry, yet the classification performed by construction yields
GitRepository, not LocalDirectory — the git-repository check in new() is a
second independent `if` that overwrites the LocalDirectory assignment. -/
theorem claim_C1_counterexample :
    classify envLocal fsRepo "/repo" = SourceType.GitRepository ∧
    classify envLocal fsRepo "/repo" ≠ SourceType.LocalDirectory ∧
    (SourceContentReader.new envLocal fsRepo "/repo").1 =
      Except.ok ⟨"/repo", some "/repo", SourceType.GitRepository, some "/tmp/t0"⟩ := by
  refine ⟨by decide, by decide, rfl⟩

/-- Claim C1 (amended): for an existing local directory, classification
yields LocalDirectory exactly when the git-repository check does not also
fire; when the directory passes the git-repository check (for example it
contains a `.git` entry), the later check overrides and classification
yields GitRepository. -/
theorem claim_C1_amended (env : Env) (fs : FS) (path : String)
    (hdir : is_local_directory fs path = true) :
    (is_git_repository env fs path = false →
      classify env fs path = SourceType.LocalDirectory) ∧
    (is_git_repository env fs path = true →
      classify env fs path = SourceType.GitRepository) := by
  constructor <;> intro hg <;> simp [classify, hg, hdir]

/-- Claim C1 (witness): the amended claim instantiated at the /repo
checkout. -/
theorem claim_C1_amended_witness :
    (is_git_repository envLocal fsRepo "/repo" = false →
      classify envLocal fsRepo "/repo" = SourceType.LocalDirectory) ∧
    (is_git_repository envLocal fsRepo "/repo" = true →
      classify envLocal fsRepo "/repo" = SourceType.GitRepository) :=
  claim_C1_amended envLocal fsRepo "/repo" (by decide)

/-- Claim C2 (code bug evaluation): reading devenv.nix from a reader built
on an existing empty directory, with a bundle lacking devenv.nix, does not
produce a FileNotFound error value — read_fallback unwraps the failed
bundle lookup and the call panics. -/
theorem claim_C2_panics :
    (SourceContentReader.new envLocal fsEmptyDir "/tmp/emptydir").1 =
      Except.ok scrEmptyDir ∧
    read_file_contents scrEmptyDir fsEmptyDir emptyBundle "devenv.nix" =
      ReadResult.panicked PanicReason.bundleMissing := by
  refine ⟨rfl, by decide⟩

/-- Bundle holding a default devenv.nix. -/
def bundleDefault : Bundle := fun f =>
  if f = "devenv.nix" then some "bundled default" else none

/-- Reader resolved to the local directory /src. -/
def scrSrc : SourceContentReader :=
  ⟨"/src", some "/src", SourceType.LocalDirectory, none⟩

/-- Filesystem where /src/devenv.nix exists and is readable. -/
def fsSrc : FS := fun p =>
  if p = "/src" then some FNode.dir
  else if p = "/src/devenv.nix" then some (FNode.file "local contents" true)
  else none

/-- Filesystem where /src exists but holds no files. -/
def fsSrcEmpty : FS := fun p =>
  if p = "/src" then some FNode.dir else none

/-- Filesystem where /src/devenv.nix exists but cannot be read. -/
def fsLocked : FS := fun p =>
  if p = "/src" then some FNode.dir
  else if p = "/src/devenv.nix" then some (FNode.file "secret" false)
  else none

/-- Claim C3: with a resolved location present, a file that exists there is
returned from disk — for every bundle, so the resolved location wins even
when the bundle holds the same filename — and a file that does not exist
there makes the call fall through to the bundle lookup (read_fallback),
producing no error of its own. -/
theorem claim_C3_fallback_precedence (scr : SourceContentReader) (fs : FS)
    (bundle : Bundle) (filename loc : String)
    (hk : scr.source_type = SourceType.LocalDirectory ∨
      scr.source_type = SourceType.GitRepository)
    (hloc : scr.location = some loc) :
    (∀ c, fs (pathJoin loc filename) = some (FNode.file c true) →
      read_file_contents scr fs bundle filename = ReadResult.ok c) ∧
    (fs (pathJoin loc filename) = none →
      read_file_contents scr fs bundle filename = read_fallback bundle filename) := by
  constructor
  · intro c hc
    rcases hk with hk | hk <;>
      simp [read_file_contents, read_local_file, hk, hloc, hc]
  · intro hn
    rcases hk with hk | hk <;>
      simp [read_file_contents, read_local_file, hk, hloc, hn]

/-- Claim C3 (witness): /src/devenv.nix on disk beats the bundled
devenv.nix; with /src empty the same read equals the bundle fallback. -/
theorem claim_C3_witness :
    read_file_contents scrSrc fsSrc bundleDefault "devenv.nix" =
      ReadResult.ok "local contents" ∧
    read_file_contents scrSrc fsSrcEmpty bundleDefault "devenv.nix" =
      read_fallback bundleDefault "devenv.nix" :=
  ⟨(claim_C3_fallback_precedence scrSrc fsSrc bundleDefault "devenv.nix" "/src"
      (Or.inl rfl) rfl).1 "local contents" (by decide),
   (claim_C3_fallback_precedence scrSrc fsSrcEmpty bundleDefault "devenv.nix" "/src"
      (Or.inl rfl) rfl).2 (by decide)⟩

/-- Claim C4: a file that exists at the resolved location but whose read
fails surfaces as an I/O error, for every bundle — the failure is never
converted into the bundled-default fallback, which applies only when the
path does not exist. -/
theorem claim_C4_io_error_not_fallback (scr : SourceContentReader) (fs : FS)
    (bundle : Bundle) (filename loc c : String)
    (hk : scr.source_type = SourceType.LocalDirectory ∨
      scr.source_type = SourceType.GitRepository)
    (hloc : scr.location = some loc)
    (hfile : fs (pathJoin loc filename) = some (FNode.file c false)) :
    read_file_contents scr fs bundle filename = ReadResult.ioError := by
  rcases hk with hk | hk <;>
    simp [read_file_contents, read_local_file, hk, hloc, hfile]

/-- Claim C4 (witness): an unreadable /src/devenv.nix yields the I/O error
even though the bundle holds a devenv.nix default. -/
theorem claim_C4_witness :
    read_file_contents scrSrc fsLocked bundleDefault "devenv.nix" =
      ReadResult.ioError :=
  claim_C4_io_error_not_fallback scrSrc fsLocked bundleDefault "devenv.nix"
    "/src" "secret" (Or.inl rfl) rfl (by decide)

/-- Parsed form of https://github.com/org/repo. -/
def urlOrgRepo : Url := ⟨"https", some "github.com", "/org/repo"⟩

/-- Environment for a remote source: the GitHub URL parses, the temporary
directory is /tmp/t0, every clone fails. -/
def envRemote : Env :=
  ⟨fun s => if s = "https://github.com/org/repo" then some urlOrgRepo else none,
   true, "/tmp/t0", fun _ => none⟩

/-- Filesystem with no entries at all. -/
def fsNone : FS := fun _ => none

/-- Claim C5: for a source passing the git-repository check that is not an
existing local directory, construction makes exactly one clone attempt
(the event list of new is exactly one cloneAttempt), and when the clone
fails construction itself returns an error, so no reader is produced. -/
theorem claim_C5_single_clone (env : Env) (fs : FS) (path : String)
    (hgit : is_git_repository env fs path = true)
    (hnd : is_local_directory fs path = false)
    (hne : path ≠ env.tempPath)
    (htemp : env.tempOk = true) :
    (SourceContentReader.new env fs path).2.2 = [Event.cloneAttempt path] ∧
    (env.cloneFiles path = none →
      (SourceContentReader.new env fs path).1 =
        Except.error ConstructError.cloneFailed) := by
  have hnd1 : is_local_directory (mkDir fs env.tempPath) path = false := by
    simpa [is_local_directory, pathExists, pathIsDir, mkDir, hne] using hnd
  cases h : env.cloneFiles path with
  | none =>
      refine ⟨?_, fun _ => ?_⟩ <;>
        simp [SourceContentReader.new, setup_git_repository, hgit, htemp, hnd1, h]
  | some files =>
      refine ⟨?_, fun hc => ?_⟩
      · simp [SourceContentReader.new, setup_git_repository, hgit, htemp, hnd1, h]
      · exact Option.noConfusion hc

/-- Claim C5 (witness): constructing from the GitHub URL over an empty
filesystem with a failing clone records one clone attempt and fails. -/
theorem claim_C5_witness :
    (SourceContentReader.new envRemote fsNone "https://github.com/org/repo").2.2 =
      [Event.cloneAttempt "https://github.com/org/repo"] ∧
    (SourceContentReader.new envRemote fsNone "https://github.com/org/repo").1 =
      Except.error ConstructError.cloneFailed :=
  ⟨(claim_C5_single_clone envRemote fsNone "https://github.com/org/repo"
      (by decide) (by decide) (by decide) rfl).1,
   (claim_C5_single_clone envRemote fsNone "https://github.com/org/repo"
      (by decide) (by decide) (by decide) rfl).2 rfl⟩

/-- Claim C6: a string that is not an existing local directory and parses
as a URL with scheme https, an allow-listed host, and a path ending in
.git or containing a slash, classifies as GitRepository; this covers every
https GitHub owner/repo URL with or without the .git suffix. -/
theorem claim_C6_url_classified_git (env : Env) (fs : FS) (s : String)
    (url : Url)
    (_hnd : is_local_directory fs s = false)
    (hp : env.urlParse s = some url)
    (hs : url.scheme = "https")
    (hh : (url.host.getD "") ∈ git_hosts)
    (hpath : strEndsWith url.path ".git" = true ∨ strContains url.path '/' = true) :
    classify env fs s = SourceType.GitRepository := by
  have hv : validate_git_url url = true := by
    rcases hpath with h | h <;> simp [validate_git_url, hs, hh, h]
  simp [classify, is_git_repository, hp, hv]

/-- Claim C6 (witness): https://github.com/org/repo (no .git suffix, no
such directory on disk) classifies as GitRepository. -/
theorem claim_C6_witness :
    classify envRemote fsNone "https://github.com/org/repo" =
      SourceType.GitRepository :=
  claim_C6_url_classified_git envRemote fsNone "https://github.com/org/repo"
    urlOrgRepo (by decide) (by decide) rfl (by decide) (Or.inr (by decide))

/-- Helper: a successful setup_git_repository always reports the freshly
created temporary directory as the owned temp resource. -/
theorem setup_ok_temp (env : Env) (fs : FS) (path : String)
    (lt : String × String) (fs1 : FS) (evs : List Event)
    (h : setup_git_repository env fs path = (Except.ok lt, fs1, evs)) :
    lt.2 = env.tempPath := by
  unfold setup_git_repository at h
  split at h
  · split at h
    · simp only [Prod.mk.injEq, Except.ok.injEq] at h
      rw [← h.1]
    · split at h
      · simp only [Prod.mk.injEq, Except.ok.injEq] at h
        rw [← h.1]
      · simp only [Prod.mk.injEq] at h
        exact absurd h.1 (by simp)
  · simp only [Prod.mk.injEq] at h
    exact absurd h.1 (by simp)

/-- Helper: shape of a successfully constructed reader — either the git
branch ran (kind GitRepository, a location present, the temp directory
owned), or it did not and the reader is exactly the state left by the
local-directory check. -/
theorem new_ok_cases (env : Env) (fs : FS) (path : String)
    (scr : SourceContentReader)
    (h : (SourceContentReader.new env fs path).1 = Except.ok scr) :
    (is_git_repository env fs path = true ∧
      scr.source_type = SourceType.GitRepository ∧
      (∃ l, scr.location = some l) ∧ scr.temp_dir = some env.tempPath) ∨
    (is_git_repository env fs path = false ∧ scr = initial_scr fs path) := by
  by_cases hg : is_git_repository env fs path
  · left
    refine ⟨hg, ?_⟩
    rcases hs : setup_git_repository env fs path with ⟨r, fs1, evs⟩
    cases r with
    | ok lt =>
        simp only [SourceContentReader.new, hg, if_true, hs,
          Except.ok.injEq] at h
        have ht := setup_ok_temp env fs path lt fs1 evs hs
        rw [← h]
        exact ⟨rfl, ⟨lt.1, rfl⟩, by rw [ht]⟩
    | error e =>
        simp only [SourceContentReader.new, hg, if_true, hs] at h
        exact absurd h (by simp)
  · right
    simp only [SourceContentReader.new, hg, if_false, Bool.false_eq_true,
      ite_false, Except.ok.injEq] at h
    exact ⟨by simpa using hg, h.symm⟩

/-- Helper: read_fallback never fires the location unwrap. -/
theorem read_fallback_no_location_panic (bundle : Bundle) (f : String) :
    read_fallback bundle f ≠ ReadResult.panicked PanicReason.locationMissing := by
  unfold read_fallback
  cases bundle f <;> simp

/-- Helper: read_local_file never fires the location unwrap when a location
is present. -/
theorem read_local_file_no_location_panic (scr : SourceContentReader)
    (fs : FS) (bundle : Bundle) (f loc : String)
    (hloc : scr.location = some loc) :
    read_local_file scr fs bundle f ≠
      ReadResult.panicked PanicReason.locationMissing := by
  unfold read_local_file
  rw [hloc]
  rcases h2 : fs (pathJoin loc f) with _ | n
  · simpa [h2] using read_fallback_no_location_panic bundle f
  · rcases n with _ | ⟨c, r⟩
    · simp [h2]
    · cases r <;> simp [h2]

/-- Claim C7: after a successful construction, the reader owns the scoped
temporary directory exactly when its kind is GitRepository — it is present
even for a local checkout that took the git branch without cloning, and
absent for LocalDirectory and Unknown readers. -/
theorem claim_C7_tempdir_iff_git (env : Env) (fs : FS) (path : String)
    (scr : SourceContentReader)
    (h : (SourceContentReader.new env fs path).1 = Except.ok scr) :
    scr.temp_dir.isSome = true ↔
      scr.source_type = SourceType.GitRepository := by
  rcases new_ok_cases env fs path scr h with ⟨_, hk, _, htd⟩ | ⟨_, hscr⟩
  · simp [hk, htd]
  · subst hscr
    unfold initial_scr
    by_cases hd : is_local_directory fs path <;> simp [hd]

/-- Claim C7 (witness): the reader built from the /repo git checkout is a
GitRepository and owns the (unused) temporary directory /tmp/t0. -/
theorem claim_C7_witness :
    (⟨"/repo", some "/repo", SourceType.GitRepository, some "/tmp/t0"⟩ :
        SourceContentReader).temp_dir.isSome = true ↔
      (⟨"/repo", some "/repo", SourceType.GitRepository, some "/tmp/t0"⟩ :
        SourceContentReader).source_type = SourceType.GitRepository :=
  claim_C7_tempdir_iff_git envLocal fsRepo "/repo" _ rfl

/-- Claim C8: after a successful construction the resolved location is
present exactly when the cached kind is not Unknown, and consequently no
read can ever fire the unwrap of the location inside read_local_file, for
any filesystem, bundle and filename. -/
theorem claim_C8_location_invariant (env : Env) (fs : FS) (path : String)
    (scr : SourceContentReader)
    (h : (SourceContentReader.new env fs path).1 = Except.ok scr) :
    (scr.location.isSome = true ↔ scr.source_type ≠ SourceType.Unknown) ∧
    (∀ fs2 bundle f, read_file_contents scr fs2 bundle f ≠
      ReadResult.panicked PanicReason.locationMissing) := by
  rcases new_ok_cases env fs path scr h with ⟨_, hk, ⟨l, hl⟩, _⟩ | ⟨_, hscr⟩
  · refine ⟨by simp [hk, hl], fun fs2 bundle f => ?_⟩
    unfold read_file_contents
    rw [hk]
    exact read_local_file_no_location_panic scr fs2 bundle f l hl
  · subst hscr
    unfold initial_scr
    by_cases hd : is_local_directory fs path
    · refine ⟨by simp [hd], fun fs2 bundle f => ?_⟩
      simp only [hd, if_true]
      unfold read_file_contents
      exact read_local_file_no_location_panic _ fs2 bundle f path rfl
    · refine ⟨by simp [hd], fun fs2 bundle f => ?_⟩
      simp only [hd, if_false]
      unfold read_file_contents
      exact read_fallback_no_location_panic bundle f

/-- Claim C8 (witness): the invariant and panic-freedom instantiated on the
reader built from /tmp/emptydir, read against its own filesystem and the
devenv.nix bundle. -/
theorem claim_C8_witness :
    (scrEmptyDir.location.isSome = true ↔
      scrEmptyDir.source_type ≠ SourceType.Unknown) ∧
    read_file_contents scrEmptyDir fsEmptyDir bundleDefault "devenv.nix" ≠
      ReadResult.panicked PanicReason.locationMissing :=
  ⟨(claim_C8_location_invariant envLocal fsEmptyDir "/tmp/emptydir"
      scrEmptyDir rfl).1,
   (claim_C8_location_invariant envLocal fsEmptyDir "/tmp/emptydir"
      scrEmptyDir rfl).2 fsEmptyDir bundleDefault "devenv.nix"⟩

/-- Claim C9: a read is a pure lookup — the call returns the receiver
unchanged (the Rust method takes &self and caches nothing), so two
successive reads with no filesystem change in between return identical
contents. -/
theorem claim_C9_idempotent (scr : SourceContentReader) (fs : FS)
    (bundle : Bundle) (f : String) :
    (read_file_contents_call scr fs bundle f).2 = scr ∧
    (read_file_contents_call
        ((read_file_contents_call scr fs bundle f).2) fs bundle f).1 =
      (read_file_contents_call scr fs bundle f).1 :=
  ⟨rfl, rfl⟩

/-- Helper: deleting a tree removes its root and everything below it. -/
theorem removeTree_none (fs : FS) (t p : String)
    (hp : p = t ∨ strStartsWith p (t ++ "/") = true) :
    removeTree fs t p = none := by
  unfold removeTree
  rcases hp with h | h <;> simp [h]

/-- Helper: when setup_git_repository fails because the clone failed, the
filesystem it leaves behind is the one where the freshly created temporary
directory has already been deleted again (the aborted call frame dropped
it). -/
theorem setup_cloneFailed_fs (env : Env) (fs : FS) (path : String)
    (fs1 : FS) (evs : List Event)
    (h : setup_git_repository env fs path =
      (Except.error ConstructError.cloneFailed, fs1, evs)) :
    fs1 = removeTree (mkDir fs env.tempPath) env.tempPath := by
  unfold setup_git_repository at h
  split at h
  · split at h
    · simp at h
    · split at h
      · simp at h
      · simp only [Prod.mk.injEq] at h
        exact h.2.1.symm
  · simp only [Prod.mk.injEq, Except.error.injEq] at h
    exact absurd h.1 (by simp)

/-- Claim C10: for a source taking the git branch, everything at or below
the temporary directory is gone from disk once the reader is destroyed —
and on the clone-failure exit path the temporary directory is already gone
when construction returns the error. -/
theorem claim_C10_cleanup (env : Env) (fs : FS) (path p : String)
    (hgit : is_git_repository env fs path = true)
    (hp : p = env.tempPath ∨
      strStartsWith p (env.tempPath ++ "/") = true) :
    (∀ scr, (SourceContentReader.new env fs path).1 = Except.ok scr →
      SourceContentReader.dropReader scr
        ((SourceContentReader.new env fs path).2.1) p = none) ∧
    ((SourceContentReader.new env fs path).1 =
        Except.error ConstructError.cloneFailed →
      (SourceContentReader.new env fs path).2.1 p = none) := by
  constructor
  · intro scr h
    rcases new_ok_cases env fs path scr h with ⟨_, _, _, htd⟩ | ⟨hg, _⟩
    · unfold SourceContentReader.dropReader
      rw [htd]
      exact removeTree_none _ _ _ hp
    · exact absurd hgit (by simp [hg])
  · intro h
    rcases hs : setup_git_repository env fs path with ⟨r, fs1, evs⟩
    cases r with
    | ok lt =>
        simp only [SourceContentReader.new, hgit, if_true, hs] at h
        exact absurd h (by simp)
    | error e =>
        have h1 : (SourceContentReader.new env fs path).2.1 = fs1 := by
          simp only [SourceContentReader.new, hgit, if_true, hs]
        simp only [SourceContentReader.new, hgit, if_true, hs,
          Except.error.injEq] at h
        subst h
        rw [h1, setup_cloneFailed_fs env fs path fs1 evs hs]
        exact removeTree_none _ _ _ hp

/-- Environment for a remote source whose clone succeeds, writing
devenv.nix into the temporary directory. -/
def envClone : Env :=
  ⟨fun s => if s = "https://github.com/org/repo" then some urlOrgRepo else none,
   true, "/tmp/t0",
   fun s => if s = "https://github.com/org/repo" then
     some [("devenv.nix", "repo contents")] else none⟩

/-- Claim C10 (witness): after destroying the reader built by a successful
clone, the cloned devenv.nix under /tmp/t0 is gone; and the failed-clone
construction already leaves no /tmp/t0 on disk. -/
theorem claim_C10_witness :
    SourceContentReader.dropReader
        ⟨"https://github.com/org/repo", some "/tmp/t0",
          SourceType.GitRepository, some "/tmp/t0"⟩
        ((SourceContentReader.new envClone fsNone
          "https://github.com/org/repo").2.1) "/tmp/t0/devenv.nix" = none ∧
    (SourceContentReader.new envRemote fsNone
        "https://github.com/org/repo").2.1 "/tmp/t0" = none :=
  ⟨(claim_C10_cleanup envClone fsNone "https://github.com/org/repo"
      "/tmp/t0/devenv.nix" (by decide) (Or.inr (by decide))).1 _ rfl,
   (claim_C10_cleanup envRemote fsNone "https://github.com/org/repo"
      "/tmp/t0" (by decide) (Or.inl rfl)).2 rfl⟩

end RepoFileExpander
